import Mathlib

/-!
# Verification of the Bluepad32 sample: connection lifecycle monitor and Android variant parser

This file embeds, in Lean 4, the two source files of the repository:

* `src/src/main/arduino_bluepad32.cpp` — the `Bluepad32` class with its polling pass
  `update()`, the callback registration `setup()`, and the previous-presence bitmask
  `_prevConnectedGamepads`.  These are translated directly from the C++ source.
* `src/src/components/bluepad32/include/parser/uni_hid_parser_android.h` — only the
  *declarations* of `uni_hid_parser_android_init_report`, `uni_hid_parser_android_parse_usage`
  and `uni_hid_parser_android_set_player_leds` are in the repository; their bodies are not.
  Those functions are therefore modelled from the specification (see the doc comments
  starting with `Modelled from the spec:`).

The C++ `update()` loop is modelled with explicit state passing: each pass takes a
platform snapshot function (standing for `arduino_get_gamepad_data`) and returns the new
`Bluepad32` state together with the ordered list of callback invocations (`Event`s) the
pass performed, recording the exact `Gamepad` value visible to each callback at the
moment it was invoked.
-/

namespace BP32

/-- `ARDUINO_MAX_GAMEPADS` — the fixed capacity of the slot table.  The numeric constant
lives in a header outside the sampled sources; the spec only requires a fixed capacity.
The development never depends on the particular value. -/
def ARDUINO_MAX_GAMEPADS : Nat := 4

/-- `hid_globals_t` — the Usage-Scaling Context: the report-scoped declarative scaling
metadata `{logical_min, logical_max, physical_min, physical_max, unit_exponent}`. -/
structure hid_globals_t where
  logical_minimum : Int
  logical_maximum : Int
  physical_minimum : Int
  physical_maximum : Int
  unit_exponent : Int
deriving Repr, DecidableEq

/-- The Canonical Gamepad State: digital buttons, analog axes normalized to a fixed
signed range, analog triggers normalized to a fixed unsigned range, a 9-way dpad value,
battery level and misc system buttons. -/
structure uni_gamepad_t where
  dpad : Nat
  buttons : Nat
  axis_x : Int
  axis_y : Int
  axis_rx : Int
  axis_ry : Int
  brake : Int
  throttle : Int
  misc_buttons : Nat
  battery : Nat
deriving Repr, DecidableEq

/-- Canonical minimum of a stick axis (fixed signed range). -/
def AXIS_MIN : Int := -512
/-- Canonical maximum of a stick axis (fixed signed range). -/
def AXIS_MAX : Int := 511
/-- Canonical minimum of a trigger (fixed unsigned range). -/
def TRIGGER_MIN : Int := 0
/-- Canonical maximum of a trigger (fixed unsigned range). -/
def TRIGGER_MAX : Int := 1023
/-- Dpad value meaning "centered / released". -/
def DPAD_CENTERED : Nat := 0

/-- The idle Canonical Gamepad State: all buttons released, sticks centered, triggers at
rest, dpad centered, battery unknown. -/
def idle_gamepad : uni_gamepad_t :=
  { dpad := DPAD_CENTERED
    buttons := 0
    axis_x := 0
    axis_y := 0
    axis_rx := 0
    axis_ry := 0
    brake := TRIGGER_MIN
    throttle := TRIGGER_MIN
    misc_buttons := 0
    battery := 0 }

/-- Modelled from the spec: the body of `uni_hid_parser_android_init_report` is not under
`src/` (only its declaration in `uni_hid_parser_android.h` is).  Per §4.1 it "resets a
Canonical Gamepad State to its idle/neutral values" and "fully overwrites the target
state; no partial reset". -/
def uni_hid_parser_android_init_report (_ : uni_gamepad_t) : uni_gamepad_t :=
  idle_gamepad

/-- Modelled from the spec: the numeric normalization policy of `parse_usage` (§4.1):
scale `value` from `[logical_min, logical_max]` into the field's canonical range
`[cmin, cmax]`, rounding toward zero, clamping on out-of-range input; a zero-width
logical range yields the field's neutral value instead of dividing by zero (§4.1
failure semantics).  All intermediate quantities in the interior branch are
non-negative, so Lean's integer division agrees with C's truncation toward zero. -/
def uni_hid_parser_normalize (cmin cmax neutral lmin lmax value : Int) : Int :=
  if lmin = lmax then neutral
  else if value ≤ lmin then cmin
  else if lmax ≤ value then cmax
  else cmin + (value - lmin) * (cmax - cmin) / (lmax - lmin)

/-- Axis normalization: into the fixed signed range, neutral = centered (0). -/
def normalize_axis (globals : hid_globals_t) (value : Int) : Int :=
  uni_hid_parser_normalize AXIS_MIN AXIS_MAX 0
    globals.logical_minimum globals.logical_maximum value

/-- Trigger normalization: into the fixed unsigned range, neutral = at rest. -/
def normalize_trigger (globals : hid_globals_t) (value : Int) : Int :=
  uni_hid_parser_normalize TRIGGER_MIN TRIGGER_MAX TRIGGER_MIN
    globals.logical_minimum globals.logical_maximum value

/-- Modelled from the spec: the hat-switch decode policy (§4.1): divide the declared
logical range into 8 equal angular sectors plus one "centered/invalid" sentinel;
out-of-range or degenerate input maps to the sentinel. Sector `8` is the sentinel. -/
def uni_hid_parser_process_hat (globals : hid_globals_t) (value : Int) : Nat :=
  if globals.logical_maximum ≤ globals.logical_minimum then 8
  else if value < globals.logical_minimum ∨ globals.logical_maximum < value then 8
  else ((value - globals.logical_minimum) * 8
          / (globals.logical_maximum - globals.logical_minimum + 1)).toNat

/-- Map a hat sector (0–7, or the sentinel 8) to the discrete 9-way dpad value.
Sector 0 is up, proceeding clockwise; the sentinel maps to centered. -/
def uni_hid_parser_hat_to_dpad (hat : Nat) : Nat :=
  match hat with
  | 0 => 1            -- up
  | 1 => 1 ||| 4      -- up | right
  | 2 => 4            -- right
  | 3 => 4 ||| 2      -- right | down
  | 4 => 2            -- down
  | 5 => 2 ||| 8      -- down | left
  | 6 => 8            -- left
  | 7 => 8 ||| 1      -- left | up
  | _ => DPAD_CENTERED

/-- Modelled from the spec: the body of `uni_hid_parser_android_parse_usage` is not under
`src/` (only its declaration in `uni_hid_parser_android.h` is).  Per §4.1 it interprets
one `(usage_page, usage, value)` triple under the given Usage-Scaling Context and updates
the corresponding field of the Canonical Gamepad State; unrecognized pairs are silently
ignored; side effects are confined to the passed-in state.  The recognized pairs are the
conventional HID usages the spec names for this variant: Generic Desktop (page 0x01)
stick axes X/Y/Z/RZ and the hat switch, Simulation Controls (page 0x02) accelerator and
brake triggers, Generic Device Controls (page 0x06) battery strength, and the Button
page (0x09), buttons 1–16. -/
def uni_hid_parser_android_parse_usage (gp : uni_gamepad_t) (globals : hid_globals_t)
    (usage_page : Nat) (usage : Nat) (value : Int) : uni_gamepad_t :=
  if usage_page = 0x01 then
    if usage = 0x30 then { gp with axis_x := normalize_axis globals value }
    else if usage = 0x31 then { gp with axis_y := normalize_axis globals value }
    else if usage = 0x32 then { gp with axis_rx := normalize_axis globals value }
    else if usage = 0x35 then { gp with axis_ry := normalize_axis globals value }
    else if usage = 0x39 then
      { gp with dpad := uni_hid_parser_hat_to_dpad (uni_hid_parser_process_hat globals value) }
    else gp
  else if usage_page = 0x02 then
    if usage = 0xc4 then { gp with throttle := normalize_trigger globals value }
    else if usage = 0xc5 then { gp with brake := normalize_trigger globals value }
    else gp
  else if usage_page = 0x06 then
    if usage = 0x20 then
      { gp with battery := (uni_hid_parser_normalize 0 255 0
          globals.logical_minimum globals.logical_maximum value).toNat }
    else gp
  else if usage_page = 0x09 then
    if 1 ≤ usage ∧ usage ≤ 16 then
      { gp with buttons :=
          if value ≠ 0 then gp.buttons ||| (1 <<< (usage - 1))
          else gp.buttons &&& (65535 ^^^ (1 <<< (usage - 1))) }
    else gp
  else gp

/-- The `(usage_page, usage)` pairs the Android variant recognizes, mirroring the guard
structure of `uni_hid_parser_android_parse_usage`. -/
def android_recognized (usage_page : Nat) (usage : Nat) : Bool :=
  (usage_page = 0x01 &&
    (usage = 0x30 || usage = 0x31 || usage = 0x32 || usage = 0x35 || usage = 0x39)) ||
  (usage_page = 0x02 && (usage = 0xc4 || usage = 0xc5)) ||
  (usage_page = 0x06 && usage = 0x20) ||
  (usage_page = 0x09 && (1 ≤ usage && usage ≤ 16))

/-- The per-slot data fetched by `arduino_get_gamepad_data`: the member `_state` of the
Arduino `Gamepad` wrapper.  The presence marker is its `idx` field (`-1` = no device);
the rest is the Canonical Gamepad State of the slot. -/
structure arduino_gamepad_data_t where
  idx : Int
  gamepad : uni_gamepad_t
deriving Repr, DecidableEq

/-- The Arduino-facing `Gamepad` wrapper: `_state` (the platform snapshot data) and the
`_connected` liveness flag, as in `arduino_bluepad32.cpp`. -/
structure Gamepad where
  _state : arduino_gamepad_data_t
  _connected : Bool
deriving Repr, DecidableEq

/-- Which kind of notification an `update()` pass fired. -/
inductive EventKind where
  | connect
  | disconnect
deriving Repr, DecidableEq

/-- One callback invocation performed by `update()`: its kind, the slot index `i`, the
value `*&_gamepads[i]` at the moment the callback was entered, and the callback's
result. -/
structure Event (α : Type) where
  kind : EventKind
  slot : Nat
  gamepad : Gamepad
  output : α
deriving Repr, DecidableEq

/-- The `Bluepad32` class state: `_prevConnectedGamepads`, the `_gamepads` slot table,
and the registered `_onConnect` / `_onDisconnect` callbacks.  Callbacks are modelled as
functions from the `Gamepad` value they receive to an arbitrary result type `α`. -/
structure Bluepad32 (α : Type) where
  _prevConnectedGamepads : Nat
  _gamepads : List Gamepad
  _onConnect : Gamepad → α
  _onDisconnect : Gamepad → α

/-- First loop of `Bluepad32::update()` starting at slot index `i`:
`arduino_get_gamepad_data(i, &_gamepads[i]._state)` for each slot, and accumulation of
the `connectedGamepads` bitmask via `if (idx != -1) connectedGamepads |= (1 << i)`.
Returns the updated slot list and the bitmask contribution of these slots. -/
def fetchLoop (snap : Nat → arduino_gamepad_data_t) :
    List Gamepad → Nat → List Gamepad × Nat
  | [], _ => ([], 0)
  | g :: gs, i =>
    let rest := fetchLoop snap gs (i + 1)
    ({ g with _state := snap i } :: rest.1,
     if (snap i).idx ≠ -1 then rest.2 ||| (1 <<< i) else rest.2)

/-- Second loop of `Bluepad32::update()` starting at slot index `i`: compare
`connectedGamepads` and `_prevConnectedGamepads` bit by bit; on a newly set bit, set
`_connected = true` and then call `_onConnect(&_gamepads[i])`; on a newly cleared bit,
call `_onDisconnect(&_gamepads[i])` and then set `_connected = false`.  Returns the
updated slot list and the events in invocation order. -/
def notifyLoop (onC onD : Gamepad → α) (cur prev : Nat) :
    List Gamepad → Nat → List Gamepad × List (Event α)
  | [], _ => ([], [])
  | g :: gs, i =>
    let rest := notifyLoop onC onD cur prev gs (i + 1)
    if cur.testBit i = prev.testBit i then (g :: rest.1, rest.2)
    else if cur.testBit i then
      let g2 : Gamepad := { g with _connected := true }
      (g2 :: rest.1, ⟨.connect, i, g2, onC g2⟩ :: rest.2)
    else
      ({ g with _connected := false } :: rest.1, ⟨.disconnect, i, g, onD g⟩ :: rest.2)

/-- `Bluepad32::update()`: fetch every slot's snapshot and build the current presence
bitmask; if it equals `_prevConnectedGamepads`, return with no notifications; otherwise
run the bit-by-bit comparison loop and store the new bitmask.  The snapshot function
`snap` stands for the platform's `arduino_get_gamepad_data`. -/
def update (bp : Bluepad32 α) (snap : Nat → arduino_gamepad_data_t) :
    Bluepad32 α × List (Event α) :=
  let fetched := fetchLoop snap bp._gamepads 0
  if fetched.2 = bp._prevConnectedGamepads then
    ({ bp with _gamepads := fetched.1 }, [])
  else
    let notified := notifyLoop bp._onConnect bp._onDisconnect fetched.2
      bp._prevConnectedGamepads fetched.1 0
    ({ bp with _gamepads := notified.1, _prevConnectedGamepads := fetched.2 }, notified.2)

/-- `Bluepad32::setup(onConnect, onDisconnect)`: store the two callbacks, overwriting
whatever was registered before. -/
def setup (bp : Bluepad32 α) (onConnect onDisconnect : Gamepad → α) : Bluepad32 α :=
  { bp with _onConnect := onConnect, _onDisconnect := onDisconnect }

/-! ## Helper lemmas about the two loops of `update()` -/

lemma fetchLoop_length (snap : Nat → arduino_gamepad_data_t) :
    ∀ (gps : List Gamepad) (k : Nat), (fetchLoop snap gps k).1.length = gps.length := by
  intro gps
  induction gps with
  | nil => intro k; simp [fetchLoop]
  | cons g gs ih => intro k; simp [fetchLoop, ih]

lemma fetchLoop_get (snap : Nat → arduino_gamepad_data_t) :
    ∀ (gps : List Gamepad) (k j : Nat) (h : j < gps.length)
      (h' : j < (fetchLoop snap gps k).1.length),
      (fetchLoop snap gps k).1.get ⟨j, h'⟩ = { gps.get ⟨j, h⟩ with _state := snap (k + j) } := by
  intro gps
  induction gps with
  | nil => intro k j h; exact absurd h (by simp)
  | cons g gs ih =>
    intro k j h h'
    cases j with
    | zero => simp [fetchLoop]
    | succ j =>
      have hj : j < gs.length := by simpa using h
      have hj' : j < (fetchLoop snap gs (k + 1)).1.length := by
        rw [fetchLoop_length]; exact hj
      have := ih (k + 1) j hj hj'
      simp only [fetchLoop, List.get]
      rw [this]
      have : k + 1 + j = k + (j + 1) := by omega
      rw [this]

lemma fetchLoop_testBit (snap : Nat → arduino_gamepad_data_t) :
    ∀ (gps : List Gamepad) (k j : Nat),
      ((fetchLoop snap gps k).2.testBit j = true ↔
        (k ≤ j ∧ j < k + gps.length ∧ (snap j).idx ≠ -1)) := by
  intro gps
  induction gps with
  | nil =>
    intro k j
    simp only [fetchLoop, Nat.zero_testBit, List.length_nil]
    constructor
    · intro h; exact absurd h (by simp)
    · intro ⟨h1, h2, _⟩; omega
  | cons g gs ih =>
    intro k j
    simp only [fetchLoop, List.length_cons]
    by_cases hidx : (snap k).idx ≠ -1
    · rw [if_pos hidx]
      rw [Nat.testBit_or]
      have hpow : (1 <<< k : Nat) = 2 ^ k := by rw [Nat.shiftLeft_eq, one_mul]
      rw [hpow, Nat.testBit_two_pow]
      constructor
      · intro hor
        rcases Bool.or_eq_true_iff.mp hor with hrest | hk
        · obtain ⟨h1, h2, h3⟩ := (ih (k + 1) j).mp hrest
          exact ⟨by omega, by omega, h3⟩
        · have hkj : k = j := of_decide_eq_true hk
          subst hkj
          exact ⟨le_refl _, by omega, hidx⟩
      · intro ⟨h1, h2, h3⟩
        rcases Nat.eq_or_lt_of_le h1 with heq | hlt
        · subst heq
          simp
        · have : (fetchLoop snap gs (k + 1)).2.testBit j = true :=
            (ih (k + 1) j).mpr ⟨hlt, by omega, h3⟩
          simp [this]
    · rw [if_neg hidx]
      rw [ih (k + 1) j]
      push_neg at hidx
      constructor
      · intro ⟨h1, h2, h3⟩
        exact ⟨by omega, by omega, h3⟩
      · intro ⟨h1, h2, h3⟩
        rcases Nat.eq_or_lt_of_le h1 with heq | hlt
        · subst heq; exact absurd hidx h3
        · exact ⟨hlt, by omega, h3⟩

lemma notifyLoop_length (onC onD : Gamepad → α) (cur prev : Nat) :
    ∀ (gps : List Gamepad) (k : Nat),
      (notifyLoop onC onD cur prev gps k).1.length = gps.length := by
  intro gps
  induction gps with
  | nil => intro k; simp [notifyLoop]
  | cons g gs ih =>
    intro k
    simp only [notifyLoop]
    split_ifs <;> simp [ih]

lemma notifyLoop_get (onC onD : Gamepad → α) (cur prev : Nat) :
    ∀ (gps : List Gamepad) (k j : Nat) (h : j < gps.length)
      (h' : j < (notifyLoop onC onD cur prev gps k).1.length),
      (notifyLoop onC onD cur prev gps k).1.get ⟨j, h'⟩ =
        (if cur.testBit (k + j) = prev.testBit (k + j) then gps.get ⟨j, h⟩
         else if cur.testBit (k + j) then { gps.get ⟨j, h⟩ with _connected := true }
         else { gps.get ⟨j, h⟩ with _connected := false }) := by
  intro gps
  induction gps with
  | nil => intro k j h; exact absurd h (by simp)
  | cons g gs ih =>
    intro k j h h'
    cases j with
    | zero =>
      simp only [notifyLoop, Nat.add_zero]
      by_cases h1 : cur.testBit k = prev.testBit k
      · simp [h1]
      · by_cases h2 : cur.testBit k
        · have hprev : prev.testBit k = false := by
            revert h1 h2; cases prev.testBit k <;> cases cur.testBit k <;> simp
          simp [h1, h2, hprev]
        · have hprev : prev.testBit k = true := by
            revert h1 h2; cases prev.testBit k <;> cases cur.testBit k <;> simp
          simp [h1, h2, hprev]
    | succ j =>
      have hj : j < gs.length := by simpa using h
      have hj' : j < (notifyLoop onC onD cur prev gs (k + 1)).1.length := by
        rw [notifyLoop_length]; exact hj
      have harith : k + 1 + j = k + (j + 1) := by omega
      have hrec := ih (k + 1) j hj hj'
      rw [harith] at hrec
      simp only [notifyLoop]
      by_cases h1 : cur.testBit k = prev.testBit k
      · simpa [h1] using hrec
      · by_cases h2 : cur.testBit k
        · have hprev : prev.testBit k = false := by
            revert h1 h2; cases prev.testBit k <;> cases cur.testBit k <;> simp
          simpa [h1, h2, hprev] using hrec
        · have hprev : prev.testBit k = true := by
            revert h1 h2; cases prev.testBit k <;> cases cur.testBit k <;> simp
          simpa [h1, h2, hprev] using hrec

lemma notifyLoop_slot_bounds (onC onD : Gamepad → α) (cur prev : Nat) :
    ∀ (gps : List Gamepad) (k : Nat),
      ∀ e ∈ (notifyLoop onC onD cur prev gps k).2, k ≤ e.slot ∧ e.slot < k + gps.length := by
  intro gps
  induction gps with
  | nil => intro k e he; exact absurd he (by simp [notifyLoop])
  | cons g gs ih =>
    intro k e he
    simp only [notifyLoop] at he
    split_ifs at he with h1 h2
    · obtain ⟨hle, hlt⟩ := ih (k + 1) e he
      exact ⟨by omega, by simpa using by omega⟩
    all_goals
      simp only [List.mem_cons] at he
      rcases he with rfl | he
      · exact ⟨le_refl _, by simp⟩
      · obtain ⟨hle, hlt⟩ := ih (k + 1) e he
        exact ⟨by omega, by simp only [List.length_cons]; omega⟩

lemma notifyLoop_pairwise (onC onD : Gamepad → α) (cur prev : Nat) :
    ∀ (gps : List Gamepad) (k : Nat),
      List.Pairwise (fun a b => a.slot < b.slot) (notifyLoop onC onD cur prev gps k).2 := by
  intro gps
  induction gps with
  | nil => intro k; simp [notifyLoop]
  | cons g gs ih =>
    intro k
    simp only [notifyLoop]
    split_ifs with h1 h2
    · exact ih (k + 1)
    all_goals
      refine List.Pairwise.cons ?_ (ih (k + 1))
      intro b hb
      have := (notifyLoop_slot_bounds onC onD cur prev gs (k + 1) b hb).1
      simpa using by omega

lemma notifyLoop_filter_below (onC onD : Gamepad → α) (cur prev : Nat)
    (gps : List Gamepad) (k m : Nat) (hm : m < k) :
    (notifyLoop onC onD cur prev gps k).2.filter (fun e => e.slot = m) = [] := by
  rw [List.filter_eq_nil_iff]
  intro e he
  have := (notifyLoop_slot_bounds onC onD cur prev gps k e he).1
  simp only [decide_eq_true_eq]
  omega

lemma notifyLoop_filter (onC onD : Gamepad → α) (cur prev : Nat) :
    ∀ (gps : List Gamepad) (k j : Nat) (h : j < gps.length),
      (notifyLoop onC onD cur prev gps k).2.filter (fun e => e.slot = k + j) =
        (if cur.testBit (k + j) = prev.testBit (k + j) then []
         else if cur.testBit (k + j) then
           [⟨EventKind.connect, k + j, { gps.get ⟨j, h⟩ with _connected := true },
             onC { gps.get ⟨j, h⟩ with _connected := true }⟩]
         else
           [⟨EventKind.disconnect, k + j, gps.get ⟨j, h⟩, onD (gps.get ⟨j, h⟩)⟩]) := by
  intro gps
  induction gps with
  | nil => intro k j h; exact absurd h (by simp)
  | cons g gs ih =>
    intro k j h
    cases j with
    | zero =>
      have hrest : (notifyLoop onC onD cur prev gs (k + 1)).2.filter
          (fun e => e.slot = k) = [] :=
        notifyLoop_filter_below onC onD cur prev gs (k + 1) k (by omega)
      simp only [notifyLoop, Nat.add_zero]
      by_cases h1 : cur.testBit k = prev.testBit k
      · simpa [h1] using hrest
      · by_cases h2 : cur.testBit k
        · have hprev : prev.testBit k = false := by
            revert h1 h2; cases prev.testBit k <;> cases cur.testBit k <;> simp
          simpa [h2, hprev, List.filter_cons] using hrest
        · have hprev : prev.testBit k = true := by
            revert h1 h2; cases prev.testBit k <;> cases cur.testBit k <;> simp
          simpa [h2, hprev, List.filter_cons] using hrest
    | succ j =>
      have hj : j < gs.length := by simpa using h
      have harith : k + 1 + j = k + (j + 1) := by omega
      have hrec := ih (k + 1) j hj
      rw [harith] at hrec
      have hslotne : ¬ (k = k + (j + 1)) := by omega
      simp only [notifyLoop]
      by_cases h1 : cur.testBit k = prev.testBit k
      · simpa [h1] using hrec
      · by_cases h2 : cur.testBit k
        · have hprev : prev.testBit k = false := by
            revert h1 h2; cases prev.testBit k <;> cases cur.testBit k <;> simp
          simpa [h2, hprev, hslotne, List.filter_cons] using hrec
        · have hprev : prev.testBit k = true := by
            revert h1 h2; cases prev.testBit k <;> cases cur.testBit k <;> simp
          simpa [h2, hprev, hslotne, List.filter_cons] using hrec

lemma pairwise_slot_inj {l : List (Event α)}
    (hp : List.Pairwise (fun a b : Event α => a.slot < b.slot) l) :
    ∀ a ∈ l, ∀ b ∈ l, a.slot = b.slot → a = b := by
  induction l with
  | nil => simp
  | cons x t ih =>
    rw [List.pairwise_cons] at hp
    intro a ha b hb heq
    rcases List.mem_cons.mp ha with ha1 | ha2
    · rcases List.mem_cons.mp hb with hb1 | hb2
      · rw [ha1, hb1]
      · exfalso
        have hlt := hp.1 b hb2
        rw [ha1] at heq
        omega
    · rcases List.mem_cons.mp hb with hb1 | hb2
      · exfalso
        have hlt := hp.1 a ha2
        rw [hb1] at heq
        omega
      · exact ih hp.2 a ha2 b hb2 heq

/-! ## Helper lemmas about `update()` itself -/

lemma update_events_nil (bp : Bluepad32 α) (snap : Nat → arduino_gamepad_data_t)
    (heq : (fetchLoop snap bp._gamepads 0).2 = bp._prevConnectedGamepads) :
    (update bp snap).2 = [] := by
  unfold update
  simp [heq]

lemma update_events_eq (bp : Bluepad32 α) (snap : Nat → arduino_gamepad_data_t)
    (hne : (fetchLoop snap bp._gamepads 0).2 ≠ bp._prevConnectedGamepads) :
    (update bp snap).2 =
      (notifyLoop bp._onConnect bp._onDisconnect (fetchLoop snap bp._gamepads 0).2
        bp._prevConnectedGamepads (fetchLoop snap bp._gamepads 0).1 0).2 := by
  unfold update
  simp [hne]

lemma update_gamepads_eq (bp : Bluepad32 α) (snap : Nat → arduino_gamepad_data_t)
    (hne : (fetchLoop snap bp._gamepads 0).2 ≠ bp._prevConnectedGamepads) :
    (update bp snap).1._gamepads =
      (notifyLoop bp._onConnect bp._onDisconnect (fetchLoop snap bp._gamepads 0).2
        bp._prevConnectedGamepads (fetchLoop snap bp._gamepads 0).1 0).1 := by
  unfold update
  simp [hne]

lemma update_prev (bp : Bluepad32 α) (snap : Nat → arduino_gamepad_data_t) :
    (update bp snap).1._prevConnectedGamepads = (fetchLoop snap bp._gamepads 0).2 := by
  unfold update
  by_cases hc : (fetchLoop snap bp._gamepads 0).2 = bp._prevConnectedGamepads
  · simp [hc]
  · simp [hc]

lemma update_gamepads_length (bp : Bluepad32 α) (snap : Nat → arduino_gamepad_data_t) :
    (update bp snap).1._gamepads.length = bp._gamepads.length := by
  unfold update
  by_cases hc : (fetchLoop snap bp._gamepads 0).2 = bp._prevConnectedGamepads
  · simp [hc, fetchLoop_length]
  · simp [hc, notifyLoop_length, fetchLoop_length]

lemma update_pairwise (bp : Bluepad32 α) (snap : Nat → arduino_gamepad_data_t) :
    List.Pairwise (fun a b : Event α => a.slot < b.slot) (update bp snap).2 := by
  by_cases hc : (fetchLoop snap bp._gamepads 0).2 = bp._prevConnectedGamepads
  · rw [update_events_nil bp snap hc]
    exact List.Pairwise.nil
  · rw [update_events_eq bp snap hc]
    exact notifyLoop_pairwise _ _ _ _ _ _

/-- The gamepad value visible to a callback fired for slot `i`: the slot's snapshot
fetched this pass, with the given liveness flag. -/
def slotView (snap : Nat → arduino_gamepad_data_t) (i : Nat) (live : Bool) : Gamepad :=
  ⟨snap i, live⟩

lemma update_filter_connect (bp : Bluepad32 α) (snap : Nat → arduino_gamepad_data_t)
    (i : Nat) (hi : i < bp._gamepads.length)
    (hprev : bp._prevConnectedGamepads.testBit i = false)
    (hcur : (snap i).idx ≠ -1) :
    (update bp snap).2.filter (fun e => e.slot = i) =
      [⟨EventKind.connect, i, slotView snap i true, bp._onConnect (slotView snap i true)⟩] := by
  have hmask : (fetchLoop snap bp._gamepads 0).2.testBit i = true :=
    (fetchLoop_testBit snap bp._gamepads 0 i).mpr ⟨Nat.zero_le i, by omega, hcur⟩
  have hne : (fetchLoop snap bp._gamepads 0).2 ≠ bp._prevConnectedGamepads := by
    intro h
    rw [h, hprev] at hmask
    exact Bool.false_ne_true hmask
  have hlen : i < (fetchLoop snap bp._gamepads 0).1.length := by
    rw [fetchLoop_length]; exact hi
  have hfilter := notifyLoop_filter bp._onConnect bp._onDisconnect
    (fetchLoop snap bp._gamepads 0).2 bp._prevConnectedGamepads
    (fetchLoop snap bp._gamepads 0).1 0 i hlen
  rw [fetchLoop_get snap bp._gamepads 0 i hi hlen] at hfilter
  simp only [Nat.zero_add, hmask, hprev] at hfilter
  rw [update_events_eq bp snap hne, hfilter]
  simp [slotView]

lemma update_filter_disconnect (bp : Bluepad32 α) (snap : Nat → arduino_gamepad_data_t)
    (i : Nat) (hi : i < bp._gamepads.length)
    (hprev : bp._prevConnectedGamepads.testBit i = true)
    (hcur : ¬ (snap i).idx ≠ -1) :
    (update bp snap).2.filter (fun e => e.slot = i) =
      [⟨EventKind.disconnect, i,
        slotView snap i (bp._gamepads.get ⟨i, hi⟩)._connected,
        bp._onDisconnect (slotView snap i (bp._gamepads.get ⟨i, hi⟩)._connected)⟩] := by
  have hmask : (fetchLoop snap bp._gamepads 0).2.testBit i = false := by
    rcases Bool.eq_false_or_eq_true ((fetchLoop snap bp._gamepads 0).2.testBit i) with h | h
    · obtain ⟨_, _, h3⟩ := (fetchLoop_testBit snap bp._gamepads 0 i).mp h
      exact absurd h3 hcur
    · exact h
  have hne : (fetchLoop snap bp._gamepads 0).2 ≠ bp._prevConnectedGamepads := by
    intro h
    rw [h, hprev] at hmask
    simp at hmask
  have hlen : i < (fetchLoop snap bp._gamepads 0).1.length := by
    rw [fetchLoop_length]; exact hi
  have hfilter := notifyLoop_filter bp._onConnect bp._onDisconnect
    (fetchLoop snap bp._gamepads 0).2 bp._prevConnectedGamepads
    (fetchLoop snap bp._gamepads 0).1 0 i hlen
  rw [fetchLoop_get snap bp._gamepads 0 i hi hlen] at hfilter
  simp only [Nat.zero_add, hmask, hprev] at hfilter
  rw [update_events_eq bp snap hne, hfilter]
  simp [slotView]

lemma foldl_setup_fields (bp : Bluepad32 α)
    (regs : List ((Gamepad → α) × (Gamepad → α))) :
    (regs.foldl (fun b r => setup b r.1 r.2) bp)._prevConnectedGamepads =
        bp._prevConnectedGamepads ∧
    (regs.foldl (fun b r => setup b r.1 r.2) bp)._gamepads = bp._gamepads := by
  induction regs generalizing bp with
  | nil => exact ⟨rfl, rfl⟩
  | cons r rs ih =>
    rw [List.foldl_cons]
    simpa [setup] using ih (setup bp r.1 r.2)

/-! ## The claims -/

/-- **C1**: on a slot's transition from Empty to Connected during one polling pass
(previous presence bit 0, current presence bit 1), exactly one connect notification
fires for that slot, and the gamepad value passed to the callback is already marked
live and already carries the idle state produced by `init_report` (the platform
guarantee that a freshly connected slot's snapshot is the `init_report` output is the
hypothesis `hidle`, modelled from the spec since the lower layers are not under
`src/`). -/
theorem connect_resets_state_and_marks_live_before_notification
    {α : Type} (bp : Bluepad32 α) (snap : Nat → arduino_gamepad_data_t)
    (i : Nat) (g0 : uni_gamepad_t)
    (hi : i < bp._gamepads.length)
    (hprev : bp._prevConnectedGamepads.testBit i = false)
    (hcur : (snap i).idx ≠ -1)
    (hidle : (snap i).gamepad = uni_hid_parser_android_init_report g0) :
    ∃ ev : Event α,
      (update bp snap).2.filter (fun e => e.slot = i) = [ev] ∧
      ev.kind = EventKind.connect ∧
      ev.gamepad._connected = true ∧
      ev.gamepad._state.gamepad = idle_gamepad ∧
      ev.output = bp._onConnect ev.gamepad := by
  refine ⟨_, update_filter_connect bp snap i hi hprev hcur, rfl, rfl, ?_, rfl⟩
  simpa [slotView, uni_hid_parser_android_init_report] using hidle

/-- **C2**: on a slot's transition from Connected to Empty during one polling pass
(previous presence bit 1, current presence bit 0), exactly one disconnect notification
fires for that slot; the gamepad value the callback sees is still marked live and still
holds the snapshot fetched this pass, and only after the callback does the slot become
not-live. -/
theorem disconnect_notifies_before_marking_not_live
    {α : Type} (bp : Bluepad32 α) (snap : Nat → arduino_gamepad_data_t) (i : Nat)
    (hi : i < bp._gamepads.length)
    (hprev : bp._prevConnectedGamepads.testBit i = true)
    (hcur : (snap i).idx = -1)
    (hlive : (bp._gamepads.get ⟨i, hi⟩)._connected = true) :
    ∃ ev : Event α,
      (update bp snap).2.filter (fun e => e.slot = i) = [ev] ∧
      ev.kind = EventKind.disconnect ∧
      ev.gamepad._connected = true ∧
      ev.gamepad._state = snap i ∧
      ev.output = bp._onDisconnect ev.gamepad ∧
      ∀ h' : i < (update bp snap).1._gamepads.length,
        ((update bp snap).1._gamepads.get ⟨i, h'⟩)._connected = false := by
  have hcur' : ¬ (snap i).idx ≠ -1 := by simp [hcur]
  have hfilter := update_filter_disconnect bp snap i hi hprev hcur'
  rw [hlive] at hfilter
  refine ⟨_, hfilter, rfl, rfl, rfl, rfl, ?_⟩
  intro h'
  have hmask : (fetchLoop snap bp._gamepads 0).2.testBit i = false := by
    rcases Bool.eq_false_or_eq_true ((fetchLoop snap bp._gamepads 0).2.testBit i) with h | h
    · obtain ⟨_, _, h3⟩ := (fetchLoop_testBit snap bp._gamepads 0 i).mp h
      exact absurd h3 hcur'
    · exact h
  have hne : (fetchLoop snap bp._gamepads 0).2 ≠ bp._prevConnectedGamepads := by
    intro h
    rw [h, hprev] at hmask
    simp at hmask
  have hg := update_gamepads_eq bp snap hne
  rw [List.get_of_eq hg ⟨i, h'⟩]
  have hlen2 : i < (fetchLoop snap bp._gamepads 0).1.length := by
    rw [fetchLoop_length]; exact hi
  rw [notifyLoop_get bp._onConnect bp._onDisconnect _ _ _ 0 i hlen2 _]
  simp [hmask, hprev]

/-- **C3**: one polling pass is edge-triggered on the net bitmask difference: whenever
the presence bitmask computed from the snapshots equals the stored previous bitmask,
no connect or disconnect notification fires for any slot (so a
connected→disconnected→connected toggle inside one polling interval is invisible). -/
theorem no_net_bitmask_change_no_notifications
    {α : Type} (bp : Bluepad32 α) (snap : Nat → arduino_gamepad_data_t)
    (h : (fetchLoop snap bp._gamepads 0).2 = bp._prevConnectedGamepads) :
    (update bp snap).2 = [] :=
  update_events_nil bp snap h

/-- **C4**: within one polling pass, any two notifications fired for the same slot are
the same notification; in particular a connect and a disconnect never both fire for one
slot in one pass (a connect event and a disconnect event would be two distinct events
with the same slot). -/
theorem no_connect_and_disconnect_for_same_slot
    {α : Type} (bp : Bluepad32 α) (snap : Nat → arduino_gamepad_data_t)
    (e1 e2 : Event α)
    (h1 : e1 ∈ (update bp snap).2) (h2 : e2 ∈ (update bp snap).2)
    (hs : e1.slot = e2.slot) : e1 = e2 :=
  pairwise_slot_inj (update_pairwise bp snap) e1 h1 e2 h2 hs

/-- **C5**: within one polling pass, the notifications fire in strictly increasing
slot-index order: the event list returned by `update` (which records invocation order)
is strictly sorted by slot index. -/
theorem notifications_fire_in_increasing_slot_order
    {α : Type} (bp : Bluepad32 α) (snap : Nat → arduino_gamepad_data_t) :
    List.Pairwise (fun a b : Event α => a.slot < b.slot) (update bp snap).2 :=
  update_pairwise bp snap

/-- **C10**: after every completed call to `update`, the stored previous-presence
bitmask agrees with the presence snapshot read during that call: bit `i` of
`_prevConnectedGamepads` is set exactly when the snapshot fetched into slot `i` had
`idx ≠ -1` — both on the early-return path and when notifications fire. -/
theorem prev_bitmask_agrees_with_snapshot
    {α : Type} (bp : Bluepad32 α) (snap : Nat → arduino_gamepad_data_t) (i : Nat)
    (hlen : bp._gamepads.length = ARDUINO_MAX_GAMEPADS)
    (hi : i < ARDUINO_MAX_GAMEPADS) :
    ((update bp snap).1._prevConnectedGamepads.testBit i = true ↔ (snap i).idx ≠ -1) := by
  rw [update_prev, fetchLoop_testBit]
  constructor
  · intro ⟨_, _, h3⟩
    exact h3
  · intro h
    exact ⟨Nat.zero_le i, by omega, h⟩

/-- **C9**: registering connect/disconnect callbacks replaces any previously registered
ones: after any sequence of registrations ending with the pair `(c, d)`, the stored
callbacks are exactly `c` and `d`, and a subsequent polling pass behaves exactly as if
only `(c, d)` had ever been registered. -/
theorem setup_last_registration_wins
    {α : Type} (bp : Bluepad32 α)
    (regs : List ((Gamepad → α) × (Gamepad → α))) (c d : Gamepad → α) :
    ((regs ++ [(c, d)]).foldl (fun b r => setup b r.1 r.2) bp)._onConnect = c ∧
    ((regs ++ [(c, d)]).foldl (fun b r => setup b r.1 r.2) bp)._onDisconnect = d ∧
    ∀ snap, update ((regs ++ [(c, d)]).foldl (fun b r => setup b r.1 r.2) bp) snap =
      update (setup bp c d) snap := by
  have hfold : (regs ++ [(c, d)]).foldl (fun b r => setup b r.1 r.2) bp =
      setup (regs.foldl (fun b r => setup b r.1 r.2) bp) c d := by
    rw [List.foldl_append]
    rfl
  have hsame : setup (regs.foldl (fun b r => setup b r.1 r.2) bp) c d = setup bp c d := by
    obtain ⟨h1, h2⟩ := foldl_setup_fields bp regs
    calc setup (regs.foldl (fun b r => setup b r.1 r.2) bp) c d
        = ⟨(regs.foldl (fun b r => setup b r.1 r.2) bp)._prevConnectedGamepads,
           (regs.foldl (fun b r => setup b r.1 r.2) bp)._gamepads, c, d⟩ := rfl
      _ = ⟨bp._prevConnectedGamepads, bp._gamepads, c, d⟩ := by rw [h1, h2]
      _ = setup bp c d := rfl
  refine ⟨?_, ?_, ?_⟩
  · rw [hfold, hsame]
    rfl
  · rw [hfold, hsame]
    rfl
  · intro snap
    rw [hfold, hsame]

/-! ## Normalization lemmas for the variant parser -/

lemma normalize_interior_bounds (cmin cmax lmin lmax v : Int)
    (hc : cmin ≤ cmax) (h1 : lmin < v) (h2 : v < lmax) :
    cmin ≤ cmin + (v - lmin) * (cmax - cmin) / (lmax - lmin) ∧
    cmin + (v - lmin) * (cmax - cmin) / (lmax - lmin) ≤ cmax := by
  have hd : (0 : Int) < lmax - lmin := by omega
  have hnum : (0 : Int) ≤ (v - lmin) * (cmax - cmin) :=
    mul_nonneg (by omega) (by omega)
  have hq0 : (0 : Int) ≤ (v - lmin) * (cmax - cmin) / (lmax - lmin) :=
    Int.ediv_nonneg hnum (le_of_lt hd)
  have hle : (v - lmin) * (cmax - cmin) ≤ (lmax - lmin) * (cmax - cmin) :=
    mul_le_mul_of_nonneg_right (by omega) (by omega)
  have hq1 : (v - lmin) * (cmax - cmin) / (lmax - lmin) ≤
      (lmax - lmin) * (cmax - cmin) / (lmax - lmin) :=
    Int.ediv_le_ediv hd hle
  rw [Int.mul_ediv_cancel_left _ (by omega : lmax - lmin ≠ 0)] at hq1
  exact ⟨by omega, by omega⟩

lemma normalize_monotone (cmin cmax neutral lmin lmax : Int)
    (hc : cmin ≤ cmax) (hl : lmin < lmax) :
    ∀ v w, v ≤ w →
      uni_hid_parser_normalize cmin cmax neutral lmin lmax v ≤
      uni_hid_parser_normalize cmin cmax neutral lmin lmax w := by
  intro v w hvw
  have hne : ¬ lmin = lmax := by omega
  simp only [uni_hid_parser_normalize, if_neg hne]
  by_cases hv1 : v ≤ lmin
  · rw [if_pos hv1]
    by_cases hw1 : w ≤ lmin
    · rw [if_pos hw1]
    · rw [if_neg hw1]
      by_cases hw2 : lmax ≤ w
      · rw [if_pos hw2]
        exact hc
      · rw [if_neg hw2]
        exact (normalize_interior_bounds cmin cmax lmin lmax w hc (by omega) (by omega)).1
  · rw [if_neg hv1]
    by_cases hv2 : lmax ≤ v
    · rw [if_pos hv2, if_neg (by omega : ¬ w ≤ lmin), if_pos (by omega : lmax ≤ w)]
    · rw [if_neg hv2]
      by_cases hw1 : w ≤ lmin
      · exfalso
        omega
      · rw [if_neg hw1]
        by_cases hw2 : lmax ≤ w
        · rw [if_pos hw2]
          exact (normalize_interior_bounds cmin cmax lmin lmax v hc (by omega) (by omega)).2
        · rw [if_neg hw2]
          have hmul : (v - lmin) * (cmax - cmin) ≤ (w - lmin) * (cmax - cmin) :=
            mul_le_mul_of_nonneg_right (by omega) (by omega)
          have := Int.ediv_le_ediv (by omega : (0 : Int) < lmax - lmin) hmul
          omega

lemma normalize_at_min (cmin cmax neutral lmin lmax : Int) (hl : lmin < lmax) :
    uni_hid_parser_normalize cmin cmax neutral lmin lmax lmin = cmin := by
  simp only [uni_hid_parser_normalize, if_neg (by omega : ¬ lmin = lmax),
    if_pos (le_refl lmin)]

lemma normalize_at_max (cmin cmax neutral lmin lmax : Int) (hl : lmin < lmax) :
    uni_hid_parser_normalize cmin cmax neutral lmin lmax lmax = cmax := by
  simp only [uni_hid_parser_normalize, if_neg (by omega : ¬ lmin = lmax),
    if_neg (by omega : ¬ lmax ≤ lmin), if_pos (le_refl lmax)]

lemma normalize_range (cmin cmax neutral lmin lmax : Int)
    (hc : cmin ≤ cmax) (hl : lmin < lmax) (v : Int) :
    cmin ≤ uni_hid_parser_normalize cmin cmax neutral lmin lmax v ∧
    uni_hid_parser_normalize cmin cmax neutral lmin lmax v ≤ cmax := by
  have hne : ¬ lmin = lmax := by omega
  simp only [uni_hid_parser_normalize, if_neg hne]
  by_cases hv1 : v ≤ lmin
  · rw [if_pos hv1]
    exact ⟨le_refl _, hc⟩
  · rw [if_neg hv1]
    by_cases hv2 : lmax ≤ v
    · rw [if_pos hv2]
      exact ⟨hc, le_refl _⟩
    · rw [if_neg hv2]
      exact normalize_interior_bounds cmin cmax lmin lmax v hc (by omega) (by omega)

/-- **C6**: the normalization `parse_usage` applies is monotonic over the logical range,
exact at its endpoints (`logical_min ↦ cmin`, `logical_max ↦ cmax`), and clamps
out-of-range input to the nearest canonical extreme, never leaving the canonical range
(no wrap, no overflow); and the axis fields of `parse_usage` are computed with exactly
this normalization. -/
theorem parse_usage_normalization_monotone_exact_clamped
    (cmin cmax neutral lmin lmax : Int) (hc : cmin ≤ cmax) (hl : lmin < lmax) :
    (∀ v w, v ≤ w → uni_hid_parser_normalize cmin cmax neutral lmin lmax v ≤
        uni_hid_parser_normalize cmin cmax neutral lmin lmax w) ∧
    uni_hid_parser_normalize cmin cmax neutral lmin lmax lmin = cmin ∧
    uni_hid_parser_normalize cmin cmax neutral lmin lmax lmax = cmax ∧
    (∀ v, v < lmin → uni_hid_parser_normalize cmin cmax neutral lmin lmax v = cmin) ∧
    (∀ v, lmax < v → uni_hid_parser_normalize cmin cmax neutral lmin lmax v = cmax) ∧
    (∀ v, cmin ≤ uni_hid_parser_normalize cmin cmax neutral lmin lmax v ∧
        uni_hid_parser_normalize cmin cmax neutral lmin lmax v ≤ cmax) ∧
    (∀ gp globals value,
      (uni_hid_parser_android_parse_usage gp globals 0x01 0x30 value).axis_x =
        uni_hid_parser_normalize AXIS_MIN AXIS_MAX 0 globals.logical_minimum
          globals.logical_maximum value) := by
  have hne : ¬ lmin = lmax := by omega
  refine ⟨normalize_monotone cmin cmax neutral lmin lmax hc hl,
    normalize_at_min cmin cmax neutral lmin lmax hl,
    normalize_at_max cmin cmax neutral lmin lmax hl, ?_, ?_,
    normalize_range cmin cmax neutral lmin lmax hc hl, ?_⟩
  · intro v hv
    simp only [uni_hid_parser_normalize, if_neg hne, if_pos (by omega : v ≤ lmin)]
  · intro v hv
    simp only [uni_hid_parser_normalize, if_neg hne,
      if_neg (by omega : ¬ v ≤ lmin), if_pos (by omega : lmax ≤ v)]
  · intro gp globals value
    simp [uni_hid_parser_android_parse_usage, normalize_axis]

/-- **C7**: every `(usage_page, usage)` pair the Android variant does not recognize is
silently ignored: `parse_usage` returns the Canonical Gamepad State unchanged, for every
value and every scaling context. -/
theorem unrecognized_usage_leaves_state_unchanged
    (usage_page usage : Nat) (h : android_recognized usage_page usage = false) :
    ∀ (gp : uni_gamepad_t) (globals : hid_globals_t) (value : Int),
      uni_hid_parser_android_parse_usage gp globals usage_page usage value = gp := by
  intro gp globals value
  unfold uni_hid_parser_android_parse_usage
  simp only [android_recognized, Bool.or_eq_false_iff, Bool.and_eq_false_iff] at h
  split_ifs <;> simp_all

/-- **C8**: with a zero-width logical range (`logical_min = logical_max`), the
normalization is still defined (total) and yields the field's neutral value: sticks
center, triggers rest, the dpad reads centered. -/
theorem zero_width_range_normalizes_to_neutral
    (globals : hid_globals_t)
    (h : globals.logical_minimum = globals.logical_maximum) :
    (∀ cmin cmax neutral v, uni_hid_parser_normalize cmin cmax neutral
        globals.logical_minimum globals.logical_maximum v = neutral) ∧
    (∀ (gp : uni_gamepad_t) (v : Int),
      (uni_hid_parser_android_parse_usage gp globals 0x01 0x30 v).axis_x = 0 ∧
      (uni_hid_parser_android_parse_usage gp globals 0x01 0x31 v).axis_y = 0 ∧
      (uni_hid_parser_android_parse_usage gp globals 0x01 0x32 v).axis_rx = 0 ∧
      (uni_hid_parser_android_parse_usage gp globals 0x01 0x35 v).axis_ry = 0 ∧
      (uni_hid_parser_android_parse_usage gp globals 0x01 0x39 v).dpad = DPAD_CENTERED ∧
      (uni_hid_parser_android_parse_usage gp globals 0x02 0xc4 v).throttle = TRIGGER_MIN ∧
      (uni_hid_parser_android_parse_usage gp globals 0x02 0xc5 v).brake = TRIGGER_MIN) := by
  constructor
  · intro cmin cmax neutral v
    simp [uni_hid_parser_normalize, h]
  · intro gp v
    refine ⟨?_, ?_, ?_, ?_, ?_, ?_, ?_⟩ <;>
      simp [uni_hid_parser_android_parse_usage, normalize_axis, normalize_trigger,
        uni_hid_parser_normalize, uni_hid_parser_process_hat, uni_hid_parser_hat_to_dpad,
        DPAD_CENTERED, h]

/-! ## Concrete fixtures and witnesses -/

/-- An empty slot: no device (`idx = -1`), not live. -/
def gp_empty : Gamepad := ⟨⟨-1, idle_gamepad⟩, false⟩

/-- A live slot 0: device present (`idx = 0`), marked live. -/
def gp_live : Gamepad := ⟨⟨0, idle_gamepad⟩, true⟩

/-- A freshly constructed `Bluepad32` (previous bitmask `0b00`, all slots empty). -/
def bp_idle : Bluepad32 Unit :=
  ⟨0, [gp_empty, gp_empty, gp_empty, gp_empty], fun _ => (), fun _ => ()⟩

/-- A `Bluepad32` whose previous bitmask is `0b01` with slot 0 live. -/
def bp_slot0 : Bluepad32 Unit :=
  ⟨1, [gp_live, gp_empty, gp_empty, gp_empty], fun _ => (), fun _ => ()⟩

/-- A platform snapshot: slot 0 newly connected (idle state), all others empty. -/
def snap_connect0 : Nat → arduino_gamepad_data_t :=
  fun j => if j = 0 then ⟨0, idle_gamepad⟩ else ⟨-1, idle_gamepad⟩

/-- A platform snapshot: every slot empty. -/
def snap_empty : Nat → arduino_gamepad_data_t := fun _ => ⟨-1, idle_gamepad⟩

/-- The single connect event fired by `update bp_idle snap_connect0`. -/
def ev_connect0 : Event Unit := ⟨EventKind.connect, 0, ⟨⟨0, idle_gamepad⟩, true⟩, ()⟩

theorem connect_resets_state_witness :
    (0 < bp_idle._gamepads.length ∧
      bp_idle._prevConnectedGamepads.testBit 0 = false ∧
      (snap_connect0 0).idx ≠ -1 ∧
      (snap_connect0 0).gamepad = uni_hid_parser_android_init_report idle_gamepad) ∧
    ∃ ev : Event Unit,
      (update bp_idle snap_connect0).2.filter (fun e => e.slot = 0) = [ev] ∧
      ev.kind = EventKind.connect ∧
      ev.gamepad._connected = true ∧
      ev.gamepad._state.gamepad = idle_gamepad ∧
      ev.output = bp_idle._onConnect ev.gamepad :=
  ⟨⟨by decide, by decide, by decide, by decide⟩,
   connect_resets_state_and_marks_live_before_notification bp_idle snap_connect0 0
     idle_gamepad (by decide) (by decide) (by decide) (by decide)⟩

theorem disconnect_notifies_witness :
    (0 < bp_slot0._gamepads.length ∧
      bp_slot0._prevConnectedGamepads.testBit 0 = true ∧
      (snap_empty 0).idx = -1 ∧
      (bp_slot0._gamepads.get ⟨0, by decide⟩)._connected = true) ∧
    ∃ ev : Event Unit,
      (update bp_slot0 snap_empty).2.filter (fun e => e.slot = 0) = [ev] ∧
      ev.kind = EventKind.disconnect ∧
      ev.gamepad._connected = true ∧
      ev.gamepad._state = snap_empty 0 ∧
      ev.output = bp_slot0._onDisconnect ev.gamepad ∧
      ∀ h' : 0 < (update bp_slot0 snap_empty).1._gamepads.length,
        ((update bp_slot0 snap_empty).1._gamepads.get ⟨0, h'⟩)._connected = false :=
  ⟨⟨by decide, by decide, by decide, by decide⟩,
   disconnect_notifies_before_marking_not_live bp_slot0 snap_empty 0
     (by decide) (by decide) (by decide) (by decide)⟩

theorem no_net_bitmask_change_witness :
    (fetchLoop snap_empty bp_idle._gamepads 0).2 = bp_idle._prevConnectedGamepads ∧
    (update bp_idle snap_empty).2 = [] :=
  ⟨by decide, no_net_bitmask_change_no_notifications bp_idle snap_empty (by decide)⟩

theorem no_connect_and_disconnect_witness :
    (ev_connect0 ∈ (update bp_idle snap_connect0).2 ∧
      ev_connect0 ∈ (update bp_idle snap_connect0).2 ∧
      ev_connect0.slot = ev_connect0.slot) ∧
    ev_connect0 = ev_connect0 :=
  ⟨⟨by decide, by decide, rfl⟩,
   no_connect_and_disconnect_for_same_slot bp_idle snap_connect0 ev_connect0 ev_connect0
     (by decide) (by decide) rfl⟩

theorem prev_bitmask_agrees_witness :
    (bp_idle._gamepads.length = ARDUINO_MAX_GAMEPADS ∧ 0 < ARDUINO_MAX_GAMEPADS) ∧
    ((update bp_idle snap_connect0).1._prevConnectedGamepads.testBit 0 = true ↔
      (snap_connect0 0).idx ≠ -1) :=
  ⟨⟨by decide, by decide⟩,
   prev_bitmask_agrees_with_snapshot bp_idle snap_connect0 0 (by decide) (by decide)⟩

theorem parse_usage_normalization_witness :
    (AXIS_MIN ≤ AXIS_MAX ∧ (0 : Int) < 255) ∧
    ((∀ v w, v ≤ w → uni_hid_parser_normalize AXIS_MIN AXIS_MAX 0 0 255 v ≤
        uni_hid_parser_normalize AXIS_MIN AXIS_MAX 0 0 255 w) ∧
    uni_hid_parser_normalize AXIS_MIN AXIS_MAX 0 0 255 0 = AXIS_MIN ∧
    uni_hid_parser_normalize AXIS_MIN AXIS_MAX 0 0 255 255 = AXIS_MAX ∧
    (∀ v, v < 0 → uni_hid_parser_normalize AXIS_MIN AXIS_MAX 0 0 255 v = AXIS_MIN) ∧
    (∀ v, 255 < v → uni_hid_parser_normalize AXIS_MIN AXIS_MAX 0 0 255 v = AXIS_MAX) ∧
    (∀ v, AXIS_MIN ≤ uni_hid_parser_normalize AXIS_MIN AXIS_MAX 0 0 255 v ∧
        uni_hid_parser_normalize AXIS_MIN AXIS_MAX 0 0 255 v ≤ AXIS_MAX) ∧
    (∀ gp globals value,
      (uni_hid_parser_android_parse_usage gp globals 0x01 0x30 value).axis_x =
        uni_hid_parser_normalize AXIS_MIN AXIS_MAX 0 globals.logical_minimum
          globals.logical_maximum value)) :=
  ⟨⟨by decide, by decide⟩,
   parse_usage_normalization_monotone_exact_clamped AXIS_MIN AXIS_MAX 0 0 255
     (by decide) (by decide)⟩

theorem unrecognized_usage_witness :
    android_recognized 0xff 0x12 = false ∧
    ∀ (gp : uni_gamepad_t) (globals : hid_globals_t) (value : Int),
      uni_hid_parser_android_parse_usage gp globals 0xff 0x12 value = gp :=
  ⟨by decide, unrecognized_usage_leaves_state_unchanged 0xff 0x12 (by decide)⟩

/-- A degenerate (zero-width) scaling context. -/
def g_degenerate : hid_globals_t := ⟨5, 5, 0, 0, 0⟩

theorem zero_width_range_witness :
    g_degenerate.logical_minimum = g_degenerate.logical_maximum ∧
    ((∀ cmin cmax neutral v, uni_hid_parser_normalize cmin cmax neutral
        g_degenerate.logical_minimum g_degenerate.logical_maximum v = neutral) ∧
    (∀ (gp : uni_gamepad_t) (v : Int),
      (uni_hid_parser_android_parse_usage gp g_degenerate 0x01 0x30 v).axis_x = 0 ∧
      (uni_hid_parser_android_parse_usage gp g_degenerate 0x01 0x31 v).axis_y = 0 ∧
      (uni_hid_parser_android_parse_usage gp g_degenerate 0x01 0x32 v).axis_rx = 0 ∧
      (uni_hid_parser_android_parse_usage gp g_degenerate 0x01 0x35 v).axis_ry = 0 ∧
      (uni_hid_parser_android_parse_usage gp g_degenerate 0x01 0x39 v).dpad = DPAD_CENTERED ∧
      (uni_hid_parser_android_parse_usage gp g_degenerate 0x02 0xc4 v).throttle = TRIGGER_MIN ∧
      (uni_hid_parser_android_parse_usage gp g_degenerate 0x02 0xc5 v).brake = TRIGGER_MIN)) :=
  ⟨by decide, zero_width_range_normalizes_to_neutral g_degenerate (by decide)⟩

end BP32
